import Mathlib

/-!
Verification of the data-peek AI subsystem (apps/desktop/src/main/ai-service.ts
and the multi-provider config store in
apps/desktop/src/renderer/src/components/data-table.tsx) against its
natural-language specification.

The TypeScript source is shallowly embedded: pure functions become Lean
functions, the persisted key-value stores become explicit state passing over
association lists, and the external generation calls of the `ai` SDK
(`generateObject` / `generateText`) are passed in as explicit outcome values,
since the spec places the provider wire protocol out of scope.  JavaScript
strings are modelled as Lean `String`s (all string literals relevant to the
claims are ASCII, where UTF-16 code-unit indexing and code-point indexing
agree).
-/

set_option autoImplicit false

namespace DataPeek

/-! ### Structured AI responses (ai-service.ts, `responseSchema`, lines 38-66)

The zod schema constrains `type` to five literals, `chartType` and `format`
to four literals each, requires `message : string`, and marks every other
field `.nullish()`: the provider may return a value, an explicit `null`, or
omit the field (`undefined`).  A `.nullish()` field of payload type `α` is
embedded as `Option (Option α)`: `none` = absent/undefined, `some none` =
null, `some (some a)` = a present value. -/

/-- `type` field of `responseSchema`: the five response kinds. -/
inductive ResponseType where
  | query
  | chart
  | metric
  | schema
  | message
  deriving DecidableEq, Repr, Inhabited

/-- `chartType` enum of `responseSchema`. -/
inductive ChartKind where
  | bar
  | line
  | pie
  | area
  deriving DecidableEq, Repr, Inhabited

/-- `format` enum of `responseSchema`. -/
inductive MetricFormat where
  | number
  | currency
  | percent
  | duration
  deriving DecidableEq, Repr, Inhabited

/-- A raw structured-output object as validated by `responseSchema`
(ai-service.ts lines 38-66): `type` and `message` are required, every other
field is `.nullish()` (value, null, or absent). -/
structure RawResponse where
  type : ResponseType
  message : String
  sql : Option (Option String)
  explanation : Option (Option String)
  warning : Option (Option String)
  requiresConfirmation : Option (Option Bool)
  title : Option (Option String)
  description : Option (Option String)
  chartType : Option (Option ChartKind)
  xKey : Option (Option String)
  yKeys : Option (Option (List String))
  label : Option (Option String)
  format : Option (Option MetricFormat)
  tables : Option (Option (List String))
  deriving DecidableEq, Repr, Inhabited

/-- The canonical `AIStructuredResponse` shape after normalization: every
field present, with `none` standing for an explicit `null`. -/
structure AIStructuredResponse where
  type : ResponseType
  message : String
  sql : Option String
  explanation : Option String
  warning : Option String
  requiresConfirmation : Option Bool
  title : Option String
  description : Option String
  chartType : Option ChartKind
  xKey : Option String
  yKeys : Option (List String)
  label : Option String
  format : Option MetricFormat
  tables : Option (List String)
  deriving DecidableEq, Repr, Inhabited

/-- JavaScript `x ?? null` on a `.nullish()` field: an absent/undefined field
and an explicit `null` both become `null`; a present value passes through.
On the `Option (Option α)` embedding this is exactly `Option.join`. -/
def nullishCoerce {α : Type} (x : Option (Option α)) : Option α :=
  x.join

/-- The `normalizedData` construction of `generateChatResponse`
(ai-service.ts lines 317-332): spread the raw object and apply `?? null` to
each of the twelve nullish fields. -/
def normalizeResponse (r : RawResponse) : AIStructuredResponse :=
  { type := r.type
    message := r.message
    sql := nullishCoerce r.sql
    explanation := nullishCoerce r.explanation
    warning := nullishCoerce r.warning
    requiresConfirmation := nullishCoerce r.requiresConfirmation
    title := nullishCoerce r.title
    description := nullishCoerce r.description
    chartType := nullishCoerce r.chartType
    xKey := nullishCoerce r.xKey
    yKeys := nullishCoerce r.yKeys
    label := nullishCoerce r.label
    format := nullishCoerce r.format
    tables := nullishCoerce r.tables }

/-- Written from the spec's kind/field table: for each kind, the listed
required fields are non-null, the listed optional fields are unconstrained,
and every other field is null.  Used to compare the normalization layer
against the table. -/
def matchesKindFieldTable (r : AIStructuredResponse) : Bool :=
  match r.type with
  | .query =>
      r.sql.isSome && r.explanation.isSome &&
      r.title.isNone && r.description.isNone && r.chartType.isNone &&
      r.xKey.isNone && r.yKeys.isNone && r.label.isNone &&
      r.format.isNone && r.tables.isNone
  | .chart =>
      r.sql.isSome && r.title.isSome && r.chartType.isSome &&
      r.xKey.isSome && r.yKeys.isSome &&
      r.explanation.isNone && r.warning.isNone &&
      r.requiresConfirmation.isNone && r.label.isNone &&
      r.format.isNone && r.tables.isNone
  | .metric =>
      r.sql.isSome && r.label.isSome && r.format.isSome &&
      r.explanation.isNone && r.warning.isNone &&
      r.requiresConfirmation.isNone && r.title.isNone &&
      r.description.isNone && r.chartType.isNone && r.xKey.isNone &&
      r.yKeys.isNone && r.tables.isNone
  | .schema =>
      r.tables.isSome &&
      r.sql.isNone && r.explanation.isNone && r.warning.isNone &&
      r.requiresConfirmation.isNone && r.title.isNone &&
      r.description.isNone && r.chartType.isNone && r.xKey.isNone &&
      r.yKeys.isNone && r.label.isNone && r.format.isNone
  | .message =>
      r.sql.isNone && r.explanation.isNone && r.warning.isNone &&
      r.requiresConfirmation.isNone && r.title.isNone &&
      r.description.isNone && r.chartType.isNone && r.xKey.isNone &&
      r.yKeys.isNone && r.label.isNone && r.format.isNone &&
      r.tables.isNone

/-- Field-wise statement that a normalized field is the nullish coercion of
the corresponding raw field: absent/undefined and null both become null, a
present value is preserved unchanged. -/
def CoercesField {α : Type} (raw : Option (Option α)) (norm : Option α) : Prop :=
  ((raw = none ∨ raw = some none) → norm = none) ∧
  (∀ v, raw = some (some v) → norm = some v)

/-- A schema-valid raw object of kind `message` that nevertheless carries a
value in its `sql` field: the zod schema does not tie the nullish fields to
the kind, so this object reaches the normalization step unchanged. -/
def crossKindRaw : RawResponse :=
  { type := .message
    message := "hi"
    sql := some (some "SELECT 1")
    explanation := none
    warning := none
    requiresConfirmation := none
    title := none
    description := none
    chartType := none
    xKey := none
    yKeys := none
    label := none
    format := none
    tables := none }

/-! ### Chat history store (ai-service.ts, lines 346-512)

The shared type declarations (`StoredChatMessage`, `ChatSession`) are
imported from `@shared/index`; their shapes follow the fields the service
reads and writes and the spec's data model.  `role` is the closed
`user | assistant | system` union; `createdAt` is optional on stored
messages (`messages[0]?.createdAt || now`).  The spec's optional
`toolInvocations` payload is never inspected by any of the functions under
verification and is omitted from the embedding.  The persisted
`chatHistory` document (`Record<string, ChatSession[] | legacy array>`) is
embedded as an association list from connection id to the runtime shape of
the stored value, and `DpStorage.get`/`set` (the spec's out-of-scope
key-value capability) become explicit state passing.  The two
nondeterministic effects, `new Date().toISOString()` and
`crypto.randomUUID()`, are threaded as explicit `now` / fresh-id
parameters. -/

/-- Message role union of the chat history model. -/
inductive ChatRole where
  | user
  | assistant
  | system
  deriving DecidableEq, Repr, Inhabited

/-- A stored chat message (`StoredChatMessage`). -/
structure StoredChatMessage where
  id : String
  role : ChatRole
  content : String
  createdAt : Option String
  deriving DecidableEq, Repr, Inhabited

/-- A chat session (`ChatSession`). -/
structure ChatSession where
  id : String
  title : String
  messages : List StoredChatMessage
  createdAt : String
  updatedAt : String
  deriving DecidableEq, Repr, Inhabited

/-- Runtime shape of the value stored under one connection id: either the
legacy flat message array or the session-based array. -/
inductive StoredData where
  | legacy (msgs : List StoredChatMessage)
  | sessions (list : List ChatSession)
  deriving DecidableEq, Repr, Inhabited

/-- The persisted `chatHistory` document: connection id to stored value. -/
def ChatHistoryStore : Type := List (String × StoredData)

instance : DecidableEq ChatHistoryStore := by
  unfold ChatHistoryStore; infer_instance

instance : Inhabited ChatHistoryStore := ⟨([] : List (String × StoredData))⟩

/-- `history[connectionId]` on the embedded document. -/
def storeLookup (h : ChatHistoryStore) (cid : String) : Option StoredData :=
  (h.find? (fun e => e.1 = cid)).map (fun e => e.2)

/-- `history[connectionId] = v` followed by `chatStore.set`: replace the
entry for `cid` (or append it when absent). -/
def storeSet (h : ChatHistoryStore) (cid : String) (v : StoredData) : ChatHistoryStore :=
  match h with
  | [] => [(cid, v)]
  | e :: rest =>
      if e.1 = cid then (cid, v) :: rest else e :: storeSet rest cid v

/-- JavaScript `x || fallback` on an optional string: `undefined` and the
empty string are falsy. -/
def jsOrElse (x : Option String) (fallback : String) : String :=
  match x with
  | none => fallback
  | some s => if s = "" then fallback else s

/-- JavaScript `String.prototype.trim`: strip leading and trailing
whitespace, embedded directly over the character list. -/
def jsTrim (s : String) : String :=
  ⟨((s.data.dropWhile Char.isWhitespace).reverse.dropWhile Char.isWhitespace).reverse⟩

/-- `generateSessionTitle` (ai-service.ts lines 349-355): first message with
role `user`, content trimmed, truncated to 40 characters plus `...` when
longer.  `content.substring(0, 40)` is UTF-16 slicing; all inputs of the
claims are ASCII, where it agrees with `String.take`. -/
def generateSessionTitle (messages : List StoredChatMessage) : String :=
  match messages.find? (fun m => m.role = ChatRole.user) with
  | none => "New Chat"
  | some firstUserMessage =>
      let content := jsTrim firstUserMessage.content
      if content.length > 40 then (content.take 40) ++ "..." else content

/-- `isLegacyFormat` (ai-service.ts lines 360-367).  The JavaScript code
checks `Array.isArray(data)`, `data.length > 0`, then
`'role' in data[0] && !('messages' in data[0])`.  On the two runtime shapes
of the embedding: every legacy message object has a `role` key and no
`messages` key, so a legacy array is detected exactly when non-empty; every
session object has a `messages` key (and no `role` key), so a session array
is never detected (empty arrays fail the length check, non-empty ones the
key check). -/
def isLegacyFormat : StoredData → Bool
  | .legacy msgs => !msgs.isEmpty
  | .sessions _ => false

/-- `migrateLegacyToSessions` (ai-service.ts lines 372-384): wrap the whole
legacy array in a single synthesized session.  `now` embeds
`new Date().toISOString()` and `freshId` the `crypto.randomUUID()` call. -/
def migrateLegacyToSessions (now freshId : String)
    (messages : List StoredChatMessage) : List ChatSession :=
  match messages with
  | [] => []
  | first :: rest =>
      [{ id := freshId
         title := generateSessionTitle (first :: rest)
         messages := first :: rest
         createdAt := jsOrElse first.createdAt now
         updatedAt := jsOrElse ((first :: rest).getLast (by simp)).createdAt now }]

/-- `getChatSessions` (ai-service.ts lines 389-406), with the store passed
explicitly; returns the session list and the possibly rewritten store.  A
missing entry returns `[]`.  A legacy-shaped non-empty array is migrated and
the store rewritten; every other stored value is returned as
`data as ChatSession[]` without touching the store (an empty legacy array is
the empty session list under that cast). -/
def getChatSessions (now freshId : String) (store : ChatHistoryStore)
    (cid : String) : List ChatSession × ChatHistoryStore :=
  match storeLookup store cid with
  | none => ([], store)
  | some data =>
      if isLegacyFormat data then
        match data with
        | .legacy msgs =>
            let sessions := migrateLegacyToSessions now freshId msgs
            (sessions, storeSet store cid (.sessions sessions))
        | .sessions l => (l, store)
      else
        match data with
        | .legacy _ => ([], store)
        | .sessions l => (l, store)

/-- `getChatSession` (ai-service.ts lines 411-414): look the session up in
`getChatSessions`; `find(...) || null` becomes `List.find?`. -/
def getChatSession (now freshId : String) (store : ChatHistoryStore)
    (cid sessionId : String) : Option ChatSession :=
  (getChatSessions now freshId store cid).1.find? (fun s => s.id = sessionId)

/-- `createChatSession` (ai-service.ts lines 419-438): build a session with
a fresh id, `title || 'New Chat'`, no messages and `createdAt = updatedAt =
now`; unshift it onto the connection's session list and persist.  `migId`
is the fresh id a legacy migration inside `getChatSessions` would use. -/
def createChatSession (now freshId migId : String) (store : ChatHistoryStore)
    (cid : String) (title : Option String) : ChatSession × ChatHistoryStore :=
  let session : ChatSession :=
    { id := freshId
      title := jsOrElse title "New Chat"
      messages := []
      createdAt := now
      updatedAt := now }
  let res := getChatSessions now migId store cid
  (session, storeSet res.2 cid (.sessions (session :: res.1)))

/-- The `updates` argument of `updateChatSession`: each field compared
against `undefined` in the source, hence `Option`. -/
structure SessionUpdates where
  messages : Option (List StoredChatMessage)
  title : Option String
  deriving DecidableEq, Repr, Inhabited

/-- Body of `updateChatSession` once the session is found (ai-service.ts
lines 456-471): replace messages when provided, auto-deriving the title
when it is still the default and the new message list is non-empty; then
apply an explicit title when provided; always bump `updatedAt`. -/
def applySessionUpdates (now : String) (updates : SessionUpdates)
    (session : ChatSession) : ChatSession :=
  let s1 :=
    match updates.messages with
    | none => session
    | some msgs =>
        let withMsgs := { session with messages := msgs }
        if session.title = "New Chat" && !msgs.isEmpty then
          { withMsgs with title := generateSessionTitle msgs }
        else withMsgs
  let s2 :=
    match updates.title with
    | none => s1
    | some t => { s1 with title := t }
  { s2 with updatedAt := now }

/-- `updateChatSession` (ai-service.ts lines 443-477): find the session by
id (`findIndex`), return `null` without writing when absent, otherwise
apply the updates, write the list back and persist. -/
def updateChatSession (now migId : String) (store : ChatHistoryStore)
    (cid sessionId : String) (updates : SessionUpdates) :
    Option ChatSession × ChatHistoryStore :=
  let res := getChatSessions now migId store cid
  let sessions := res.1
  match sessions.findIdx? (fun s => s.id = sessionId) with
  | none => (none, res.2)
  | some index =>
      let session := applySessionUpdates now updates (sessions.getD index default)
      (some session, storeSet res.2 cid (.sessions (sessions.set index session)))

/-! ### Multi-provider configuration store (data-table.tsx, lines 250-460)

The provider id union and the configuration record shapes are imported from
`@shared/index`; they follow the fields the store reads and writes and the
spec's data model.  A JavaScript object keyed by provider id is embedded as
an insertion-ordered association list, so that `Object.keys(...)[0]` is the
head key and `delete obj[p]` removes the entry in place. -/

/-- The closed provider id union (`AIProvider`). -/
inductive AIProvider where
  | openai
  | anthropic
  | google
  | groq
  | ollama
  deriving DecidableEq, Repr, Inhabited

/-- Per-provider runtime configuration (`AIProviderConfig`): an optional
api key and an optional base URL. -/
structure AIProviderConfig where
  apiKey : Option String
  baseUrl : Option String
  deriving DecidableEq, Repr, Inhabited

/-- The persisted multi-provider configuration (`AIMultiProviderConfig`). -/
structure AIMultiProviderConfig where
  providers : List (AIProvider × AIProviderConfig)
  activeProvider : AIProvider
  activeModels : List (AIProvider × String)
  deriving DecidableEq, Repr, Inhabited

/-- The legacy single-provider configuration (`AIConfig`). -/
structure AIConfig where
  provider : AIProvider
  apiKey : Option String
  model : String
  baseUrl : Option String
  deriving DecidableEq, Repr, Inhabited

/-- `config.providers[p]` on the embedded provider map. -/
def getProviderEntry (c : AIMultiProviderConfig) (p : AIProvider) :
    Option AIProviderConfig :=
  (c.providers.find? (fun e => e.1 = p)).map (fun e => e.2)

/-- JavaScript `!!x` on an optional string: `undefined` and `""` are falsy. -/
def strTruthy : Option String → Bool
  | none => false
  | some s => !(s = "")

/-- `isMultiProviderConfigured` (data-table.tsx lines 324-333).  The
`!config?.providers || !config.activeProvider` guard reduces to the
null-config check: on a present config, `providers` is an object (truthy)
and `activeProvider` a non-empty literal of the provider union. -/
def isMultiProviderConfigured : Option AIMultiProviderConfig → Bool
  | none => false
  | some config =>
      match getProviderEntry config config.activeProvider with
      | none => false
      | some activeConfig =>
          if config.activeProvider = AIProvider.ollama then true
          else strTruthy activeConfig.apiKey

/-- Modelled from the spec: the per-provider default model ids
(`DEFAULT_MODELS`, declared in the `@shared/index` module that is not part
of the source tree).  The spec only requires a fixed fallback model id per
provider; the concrete strings are immaterial to every claim. -/
def DEFAULT_MODELS : AIProvider → String
  | .openai => "gpt-default"
  | .anthropic => "claude-default"
  | .google => "gemini-default"
  | .groq => "groq-default"
  | .ollama => "llama-default"

/-- `config.activeModels[p]` on the embedded model map. -/
def getActiveModel (c : AIMultiProviderConfig) (p : AIProvider) : Option String :=
  (c.activeModels.find? (fun e => e.1 = p)).map (fun e => e.2)

/-- `deriveLegacyConfig` (data-table.tsx lines 336-349): project the active
provider's entry into the legacy shape, falling back to the provider's
default model. -/
def deriveLegacyConfig : Option AIMultiProviderConfig → Option AIConfig
  | none => none
  | some multiConfig =>
      match getProviderEntry multiConfig multiConfig.activeProvider with
      | none => none
      | some providerConfig =>
          some
            { provider := multiConfig.activeProvider
              apiKey := providerConfig.apiKey
              model := jsOrElse (getActiveModel multiConfig multiConfig.activeProvider)
                (DEFAULT_MODELS multiConfig.activeProvider)
              baseUrl := providerConfig.baseUrl }

/-- The slice of the zustand `AIState` touched by the configuration
actions. -/
structure AIState where
  multiProviderConfig : Option AIMultiProviderConfig
  config : Option AIConfig
  isConfigured : Bool
  deriving DecidableEq, Repr, Inhabited

/-- `removeProviderConfig` (data-table.tsx lines 405-430): no-op without a
config; otherwise delete the provider's entry, and when it was the active
provider switch to the first remaining configured provider
(`Object.keys(newProviders)[0]`) or `openai` when none remain; then re-derive
the legacy config and `isConfigured`. -/
def removeProviderConfig (st : AIState) (provider : AIProvider) : AIState :=
  match st.multiProviderConfig with
  | none => st
  | some multiProviderConfig =>
      let newProviders := multiProviderConfig.providers.filter (fun e => !(e.1 = provider))
      let newActiveProvider :=
        if provider = multiProviderConfig.activeProvider then
          match newProviders with
          | [] => AIProvider.openai
          | e :: _ => e.1
        else multiProviderConfig.activeProvider
      let newConfig : AIMultiProviderConfig :=
        { providers := newProviders
          activeProvider := newActiveProvider
          activeModels := multiProviderConfig.activeModels }
      { multiProviderConfig := some newConfig
        config := deriveLegacyConfig (some newConfig)
        isConfigured := isMultiProviderConfigured (some newConfig) }

/-! ### Model resolution, prompt building, generation and key validation
(ai-service.ts, lines 122-344)

The outbound calls of the `ai` SDK (`generateObject`, `generateText`) are
the spec's out-of-scope provider transport; each call's outcome is passed in
as an explicit `Except` value: `.ok` is a normal (schema-validated) return,
`.error msg` a thrown error whose `message` is `msg` (the
`error instanceof Error ? error.message : 'Unknown error'` dance collapses
to the carried string).  Both functions issue exactly one call, so one
outcome value per invocation captures the absence of retries. -/

/-- Render a `ChatRole` the way JavaScript string interpolation does. -/
def roleString : ChatRole → String
  | .user => "user"
  | .assistant => "assistant"
  | .system => "system"

/-- A conversation message passed to `generateChatResponse` (`AIMessage`). -/
structure AIMessage where
  role : ChatRole
  content : String
  deriving DecidableEq, Repr, Inhabited

/-- Foreign-key info attached to a column (`SchemaInfo` shape). -/
structure ForeignKeyInfo where
  referencedTable : String
  referencedColumn : String
  deriving DecidableEq, Repr, Inhabited

/-- A column of the schema metadata; only the fields `buildSystemPrompt`
reads are modelled. -/
structure ColumnInfo where
  name : String
  dataType : String
  isPrimaryKey : Bool
  foreignKey : Option ForeignKeyInfo
  deriving DecidableEq, Repr, Inhabited

/-- A table of the schema metadata. -/
structure TableInfo where
  name : String
  columns : List ColumnInfo
  deriving DecidableEq, Repr, Inhabited

/-- One schema of the schema metadata (`SchemaInfo`). -/
structure SchemaInfo where
  name : String
  tables : List TableInfo
  deriving DecidableEq, Repr, Inhabited

/-- The provider binding built by `getModel` (ai-service.ts lines 122-168):
each provider maps to its own client construction; `ollama` is special-cased
onto the OpenAI-compatible shape with a placeholder key and a default local
base URL.  The `default` branch of the switch is unreachable on the closed
provider union. -/
structure ResolvedModel where
  provider : AIProvider
  apiKey : Option String
  baseUrl : Option String
  model : String
  deriving DecidableEq, Repr, Inhabited

/-- `getModel` (ai-service.ts lines 122-168). -/
def getModel (config : AIConfig) : ResolvedModel :=
  match config.provider with
  | .openai =>
      { provider := .openai, apiKey := config.apiKey
        baseUrl := config.baseUrl, model := config.model }
  | .anthropic =>
      { provider := .anthropic, apiKey := config.apiKey
        baseUrl := config.baseUrl, model := config.model }
  | .google =>
      { provider := .google, apiKey := config.apiKey
        baseUrl := config.baseUrl, model := config.model }
  | .groq =>
      { provider := .groq, apiKey := config.apiKey
        baseUrl := config.baseUrl, model := config.model }
  | .ollama =>
      { provider := .ollama, apiKey := some "ollama"
        baseUrl := some (jsOrElse config.baseUrl "http://localhost:11434/v1")
        model := config.model }

/-- One column descriptor of the prompt's schema context
(ai-service.ts lines 180-187). -/
def columnDescriptor (col : ColumnInfo) : String :=
  let colDef := col.name ++ ": " ++ col.dataType
  let colDef := if col.isPrimaryKey then colDef ++ " (PK)" else colDef
  match col.foreignKey with
  | none => colDef
  | some fk => colDef ++ " -> " ++ fk.referencedTable ++ "." ++ fk.referencedColumn

/-- One table line of the prompt's schema context (ai-service.ts lines
178-190). -/
def tableDescriptor (table : TableInfo) : String :=
  "  " ++ table.name ++ ": [" ++
    String.intercalate ", " (table.columns.map columnDescriptor) ++ "]"

/-- One schema block of the prompt's schema context (ai-service.ts lines
176-193). -/
def schemaDescriptor (schema : SchemaInfo) : String :=
  "Schema \"" ++ schema.name ++ "\":\n" ++
    String.intercalate "\n" (schema.tables.map tableDescriptor)

/-- The fixed instruction block of the system prompt (ai-service.ts lines
202-240), between the schema context and the SQL guidelines. -/
def responseFormatBlock : String :=
  "## Response Format\n\n" ++
  "Set the \"type\" field and fill ONLY the relevant fields. " ++
  "**IMPORTANT: All fields must be present in the response.** " ++
  "Set unused fields to null (not undefined). Include every field listed below.\n\n" ++
  "### type: \"query\"\n" ++
  "Use when user asks for data or wants to run a query.\n" ++
  "- Fill: message, sql, explanation\n" ++
  "- Optional: warning, requiresConfirmation (set true for UPDATE/DELETE/DROP/TRUNCATE)\n" ++
  "- Null: title, description, chartType, xKey, yKeys, label, format, tables\n" ++
  "- Include LIMIT 100 for SELECT queries unless specified\n\n" ++
  "### type: \"chart\"\n" ++
  "Use when user asks to visualize, chart, graph, or plot data.\n" ++
  "- Fill: message, sql, title, chartType, xKey, yKeys\n" ++
  "- Optional: description\n" ++
  "- Null: explanation, warning, requiresConfirmation, label, format, tables\n" ++
  "- chartType: bar (comparisons), line (time trends), pie (proportions â‰¤8 items), area (cumulative)\n\n" ++
  "### type: \"metric\"\n" ++
  "Use when user asks for a single KPI/number (total, count, average).\n" ++
  "- Fill: message, sql, label, format\n" ++
  "- Null: explanation, warning, requiresConfirmation, title, description, chartType, xKey, yKeys, tables\n" ++
  "- format: number, currency, percent, or duration\n\n" ++
  "### type: \"schema\"\n" ++
  "Use when user asks about table structure or columns.\n" ++
  "- Fill: message, tables\n" ++
  "- Null: sql, explanation, warning, requiresConfirmation, title, description, chartType, xKey, yKeys, label, format\n\n" ++
  "### type: \"message\"\n" ++
  "Use for general questions, clarifications, or when no SQL is needed.\n" ++
  "- Fill: message\n" ++
  "- Null: ALL other fields\n\n"

/-- `buildSystemPrompt` (ai-service.ts lines 173-241). -/
def buildSystemPrompt (schemas : List SchemaInfo) (dbType : String) : String :=
  let schemaContext := String.intercalate "\n\n" (schemas.map schemaDescriptor)
  "You are a helpful database assistant for a " ++ dbType ++ " database.\n\n" ++
  "## Database Schema\n\n" ++ schemaContext ++ "\n\n" ++
  responseFormatBlock ++
  "## SQL Guidelines\n" ++
  "- Use proper " ++ dbType ++ " syntax\n" ++
  "- Use table aliases for readability\n" ++
  "- Quote identifiers if they contain special characters\n" ++
  "- Be precise with JOINs based on foreign key relationships"

/-- Result shape of `generateChatResponse`:
`{ success, data?, error? }` with the optional fields as `Option`. -/
structure GenerateChatResult where
  success : Bool
  data : Option AIStructuredResponse
  error : Option String
  deriving DecidableEq, Repr, Inhabited

/-- The V8 `TypeError` message raised by `messages[messages.length - 1]
.content` when `messages` is empty; the `try` block converts it into the
failure result like any other error. -/
def emptyMessagesError : String :=
  "Cannot read properties of undefined (reading \x27content\x27)"

/-- `generateChatResponse` (ai-service.ts lines 284-344): build the prompt
context, issue one `generateObject` call (its outcome passed in as
`outcome`), normalize the result; the surrounding `try`/`catch` converts
every thrown error into `{ success: false, error }`. -/
def generateChatResponse (config : AIConfig) (messages : List AIMessage)
    (schemas : List SchemaInfo) (dbType : String)
    (outcome : Except String RawResponse) : GenerateChatResult :=
  let _model := getModel config
  let _systemPrompt := buildSystemPrompt schemas dbType
  match messages.getLast? with
  | none => { success := false, data := none, error := some emptyMessagesError }
  | some lastUserMessage =>
      let conversationContext :=
        String.intercalate "\n"
          (messages.dropLast.map (fun m => roleString m.role ++ ": " ++ m.content))
      let _prompt :=
        if !(conversationContext = "") then
          "Previous conversation:\n" ++ conversationContext ++
            "\n\nUser\x27s current request: " ++ lastUserMessage.content
        else lastUserMessage.content
      match outcome with
      | .ok raw =>
          { success := true, data := some (normalizeResponse raw), error := none }
      | .error e =>
          { success := false, data := none, error := some e }

/-- Character-list substring test used to embed JavaScript
`String.prototype.includes` (all patterns of interest are ASCII). -/
def containsChars (pat : List Char) : List Char → Bool
  | [] => pat.isEmpty
  | c :: rest => pat.isPrefixOf (c :: rest) || containsChars pat rest

/-- JavaScript `s.includes(pat)`. -/
def strIncludes (s pat : String) : Bool :=
  containsChars pat.toList s.toList

/-- The error categorization of `validateAPIKey` (ai-service.ts lines
262-277): the four early-return signature checks in source order, then the
raw message. -/
def mapValidationError (message : String) : String :=
  if strIncludes message "401" || strIncludes message "Unauthorized" then
    "Invalid API key"
  else if strIncludes message "403" || strIncludes message "Forbidden" then
    "API key does not have required permissions"
  else if strIncludes message "429" then
    "Rate limit exceeded. Please try again later."
  else if strIncludes message "ECONNREFUSED" || strIncludes message "ENOTFOUND" then
    "Could not connect to AI provider. Check your network."
  else message

/-- Result shape of `validateAPIKey`: `{ valid, error? }`. -/
structure ValidationResult where
  valid : Bool
  error : Option String
  deriving DecidableEq, Repr, Inhabited

/-- `validateAPIKey` (ai-service.ts lines 246-279): resolve the model, issue
one minimal `generateText` call (outcome passed in), return `{ valid: true }`
on success and the categorized failure otherwise; the `try`/`catch` spans
the whole body. -/
def validateAPIKey (config : AIConfig) (outcome : Except String Unit) :
    ValidationResult :=
  let _model := getModel config
  match outcome with
  | .ok _ => { valid := true, error := none }
  | .error message =>
      { valid := false, error := some (mapValidationError message) }

/-! ### Helper lemmas -/

theorem coercesField_join {α : Type} (x : Option (Option α)) :
    CoercesField x x.join := by
  constructor
  · rintro (rfl | rfl) <;> rfl
  · rintro v rfl; rfl

theorem storeLookup_storeSet_self (h : ChatHistoryStore) (cid : String)
    (v : StoredData) : storeLookup (storeSet h cid v) cid = some v := by
  induction h with
  | nil => simp [storeSet, storeLookup, List.find?]
  | cons e rest ih =>
      by_cases hc : e.1 = cid
      · simp [storeSet, hc, storeLookup, List.find?]
      · simp only [storeSet, if_neg hc]
        simpa [storeLookup, List.find?, hc] using ih

theorem getChatSessions_of_sessions (now migId : String)
    (store : ChatHistoryStore) (cid : String) (l : List ChatSession)
    (h : storeLookup store cid = some (StoredData.sessions l)) :
    getChatSessions now migId store cid = (l, store) := by
  unfold getChatSessions
  rw [h]
  simp [isLegacyFormat]

theorem updateChatSession_front (now migId : String) (store : ChatHistoryStore)
    (cid sid : String) (s : ChatSession) (rest : List ChatSession)
    (u : SessionUpdates)
    (hl : storeLookup store cid = some (StoredData.sessions (s :: rest)))
    (hid : s.id = sid) :
    updateChatSession now migId store cid sid u =
      (some (applySessionUpdates now u s),
       storeSet store cid (StoredData.sessions (applySessionUpdates now u s :: rest))) := by
  unfold updateChatSession
  rw [getChatSessions_of_sessions now migId store cid _ hl]
  simp [List.findIdx?_cons, hid]

/-- The session record built by `createChatSession` before insertion. -/
def freshSession (now freshId : String) (title : Option String) : ChatSession :=
  { id := freshId
    title := jsOrElse title "New Chat"
    messages := []
    createdAt := now
    updatedAt := now }

theorem createChatSession_fst (now freshId migId : String)
    (store : ChatHistoryStore) (cid : String) (title : Option String) :
    (createChatSession now freshId migId store cid title).1 =
      freshSession now freshId title := rfl

theorem createChatSession_lookup (now freshId migId : String)
    (store : ChatHistoryStore) (cid : String) (title : Option String) :
    storeLookup (createChatSession now freshId migId store cid title).2 cid =
      some (StoredData.sessions
        (freshSession now freshId title ::
          (getChatSessions now migId store cid).1)) := by
  unfold createChatSession
  exact storeLookup_storeSet_self _ _ _

/-! ### Claim theorems -/

/-- C1 (counterexample): the raw object `crossKindRaw` is schema-valid, of
kind `message`, yet its normalization carries a non-null `sql` field, so the
set of non-null fields of the normalized output does not match the spec's
kind/field table for `message` — the normalization step does not enforce
the table. -/
theorem normalize_kind_table_counterexample :
    crossKindRaw.type = ResponseType.message ∧
    matchesKindFieldTable (normalizeResponse crossKindRaw) = false := by
  constructor
  · rfl
  · decide

/-- C1 (amended): for every raw structured-output object, the normalization
step of `generateChatResponse` returns an object in which every field of the
full field set is present with an explicit value — an absent/undefined or
null raw field becomes null and a present value is preserved unchanged, so
the non-null output fields are exactly the value-carrying raw fields; the
kind/field table itself is not enforced by this step. -/
theorem normalize_presence (r : RawResponse) :
    CoercesField r.sql (normalizeResponse r).sql ∧
    CoercesField r.explanation (normalizeResponse r).explanation ∧
    CoercesField r.warning (normalizeResponse r).warning ∧
    CoercesField r.requiresConfirmation (normalizeResponse r).requiresConfirmation ∧
    CoercesField r.title (normalizeResponse r).title ∧
    CoercesField r.description (normalizeResponse r).description ∧
    CoercesField r.chartType (normalizeResponse r).chartType ∧
    CoercesField r.xKey (normalizeResponse r).xKey ∧
    CoercesField r.yKeys (normalizeResponse r).yKeys ∧
    CoercesField r.label (normalizeResponse r).label ∧
    CoercesField r.format (normalizeResponse r).format ∧
    CoercesField r.tables (normalizeResponse r).tables ∧
    (normalizeResponse r).type = r.type ∧
    (normalizeResponse r).message = r.message :=
  ⟨coercesField_join _, coercesField_join _, coercesField_join _,
   coercesField_join _, coercesField_join _, coercesField_join _,
   coercesField_join _, coercesField_join _, coercesField_join _,
   coercesField_join _, coercesField_join _, coercesField_join _, rfl, rfl⟩

/-- C1 (witness): instantiating the amended theorem at `crossKindRaw`
yields the concrete coercions. -/
theorem normalize_presence_witness :
    (normalizeResponse crossKindRaw).sql = some "SELECT 1" ∧
    (normalizeResponse crossKindRaw).title = none := by
  obtain ⟨hsql, -, -, -, htitle, -⟩ := normalize_presence crossKindRaw
  exact ⟨hsql.2 "SELECT 1" rfl, htitle.1 (Or.inl rfl)⟩

/-- C2: chat-history migration is idempotent — a stored value already in
session shape is never detected as legacy, and `getChatSessions` returns it
without migrating or rewriting the store; moreover the legacy detector
accepts exactly the non-empty flat message arrays (whose first element has a
`role` field and no `messages` field). -/
theorem migration_idempotent :
    (∀ (store : ChatHistoryStore) (cid now migId : String)
        (l : List ChatSession),
        storeLookup store cid = some (StoredData.sessions l) →
          isLegacyFormat (StoredData.sessions l) = false ∧
          getChatSessions now migId store cid = (l, store)) ∧
    (∀ d : StoredData,
        isLegacyFormat d = true ↔ ∃ m ms, d = StoredData.legacy (m :: ms)) := by
  constructor
  · intro store cid now migId l h
    exact ⟨rfl, getChatSessions_of_sessions now migId store cid l h⟩
  · intro d
    cases d with
    | legacy msgs => cases msgs <;> simp [isLegacyFormat]
    | sessions l => simp [isLegacyFormat]

/-- A concrete session and store in the already-migrated shape. -/
def sessionW : ChatSession :=
  { id := "s1"
    title := "T"
    messages := []
    createdAt := "2024-01-01T00:00:00Z"
    updatedAt := "2024-01-01T00:00:00Z" }

/-- A store whose `"conn1"` entry is already session-shaped. -/
def storeW : ChatHistoryStore := [("conn1", StoredData.sessions [sessionW])]

/-- C2 (witness): on the concrete session-shaped store, the detector
returns false and the read leaves the store untouched. -/
theorem migration_idempotent_witness :
    isLegacyFormat (StoredData.sessions [sessionW]) = false ∧
    getChatSessions "t0" "g0" storeW "conn1" = ([sessionW], storeW) :=
  migration_idempotent.1 storeW "conn1" "t0" "g0" [sessionW] (by decide)

theorem applySessionUpdates_id (now : String) (u : SessionUpdates)
    (s : ChatSession) : (applySessionUpdates now u s).id = s.id := by
  rcases u with ⟨um, ut⟩
  rcases um with _ | msgs <;> rcases ut with _ | t <;>
    simp only [applySessionUpdates] <;> (try split) <;> rfl

theorem applySessionUpdates_title_explicit (now : String)
    (m : Option (List StoredChatMessage)) (t : String) (s : ChatSession) :
    (applySessionUpdates now ⟨m, some t⟩ s).title = t := rfl

theorem applySessionUpdates_title_noauto (now : String)
    (msgs : List StoredChatMessage) (s : ChatSession)
    (h : ¬ s.title = "New Chat") :
    (applySessionUpdates now ⟨some msgs, none⟩ s).title = s.title := by
  unfold applySessionUpdates
  simp [h]

/-- The first message of the auto-title scenario: role `user`, the 39
character content of the claim. -/
def c3Message : StoredChatMessage :=
  { id := "m1"
    role := ChatRole.user
    content := "show me all users from last week please"
    createdAt := none }

/-- Scenario step 0: create a session with the default title. -/
def c3Created (store : ChatHistoryStore) (cid n0 sid g0 : String) :
    ChatSession × ChatHistoryStore :=
  createChatSession n0 sid g0 store cid none

/-- Scenario step 1: first update, setting the single user message. -/
def c3Step1 (store : ChatHistoryStore) (cid n0 n1 sid g0 g1 : String) :
    Option ChatSession × ChatHistoryStore :=
  updateChatSession n1 g1 (c3Created store cid n0 sid g0).2 cid sid
    ⟨some [c3Message], none⟩

/-- Scenario step 2: second update, setting an explicit title `t`. -/
def c3Step2 (store : ChatHistoryStore) (cid n0 n1 n2 sid g0 g1 g2 t : String) :
    Option ChatSession × ChatHistoryStore :=
  updateChatSession n2 g2 (c3Step1 store cid n0 n1 sid g0 g1).2 cid sid
    ⟨none, some t⟩

/-- Scenario step 3: third update, only replacing messages. -/
def c3Step3 (store : ChatHistoryStore)
    (cid n0 n1 n2 n3 sid g0 g1 g2 g3 t : String)
    (msgs3 : List StoredChatMessage) : Option ChatSession × ChatHistoryStore :=
  updateChatSession n3 g3 (c3Step2 store cid n0 n1 n2 sid g0 g1 g2 t).2 cid sid
    ⟨some msgs3, none⟩

/-- C3 (counterexample): the claim's first message is 39 characters long,
below the 40-character truncation threshold, so the derived title is the
untruncated content — not the claimed
`"show me all users from last week pl..."`. -/
theorem auto_title_counterexample :
    ((c3Step1 ([] : ChatHistoryStore) "conn1" "t0" "t1" "s1" "g0" "g1").1.map
        ChatSession.title = some "show me all users from last week please") ∧
    ¬ ((some "show me all users from last week please" : Option String) =
        some "show me all users from last week pl...") := by
  constructor
  · rfl
  · decide

/-- C3 (amended): a session created with the default title, then updated
with the first message `{role: user, content: "show me all users from last
week please"}`, acquires the untruncated title `"show me all users from
last week please"` (39 characters, below the 40-character truncation
threshold); a subsequent `updateChatSession` with an explicit title `t`
overrides the derived title, and a later call that only replaces messages
does not revert the explicit title. -/
theorem auto_title_sequence (store : ChatHistoryStore)
    (cid n0 n1 n2 n3 sid g0 g1 g2 g3 t : String)
    (msgs3 : List StoredChatMessage) (ht : ¬ t = "New Chat") :
    (c3Created store cid n0 sid g0).1.title = "New Chat" ∧
    (c3Step1 store cid n0 n1 sid g0 g1).1.map ChatSession.title =
      some "show me all users from last week please" ∧
    (c3Step2 store cid n0 n1 n2 sid g0 g1 g2 t).1.map ChatSession.title =
      some t ∧
    (c3Step3 store cid n0 n1 n2 n3 sid g0 g1 g2 g3 t msgs3).1.map
      ChatSession.title = some t := by
  have hrest : storeLookup (c3Created store cid n0 sid g0).2 cid =
      some (StoredData.sessions
        (freshSession n0 sid none :: (getChatSessions n0 g0 store cid).1)) :=
    createChatSession_lookup n0 sid g0 store cid none
  have hs1 : c3Step1 store cid n0 n1 sid g0 g1 =
      (some (applySessionUpdates n1 ⟨some [c3Message], none⟩
          (freshSession n0 sid none)),
       storeSet (c3Created store cid n0 sid g0).2 cid
         (StoredData.sessions
           (applySessionUpdates n1 ⟨some [c3Message], none⟩
              (freshSession n0 sid none) ::
            (getChatSessions n0 g0 store cid).1))) :=
    updateChatSession_front n1 g1 (c3Created store cid n0 sid g0).2 cid sid
      (freshSession n0 sid none) ((getChatSessions n0 g0 store cid).1)
      ⟨some [c3Message], none⟩ hrest rfl
  have hl1 : storeLookup (c3Step1 store cid n0 n1 sid g0 g1).2 cid =
      some (StoredData.sessions
        (applySessionUpdates n1 ⟨some [c3Message], none⟩
           (freshSession n0 sid none) ::
         (getChatSessions n0 g0 store cid).1)) := by
    rw [hs1]
    exact storeLookup_storeSet_self _ _ _
  have hid1 : (applySessionUpdates n1 ⟨some [c3Message], none⟩
      (freshSession n0 sid none)).id = sid := by
    rw [applySessionUpdates_id]
    rfl
  have hs2 : c3Step2 store cid n0 n1 n2 sid g0 g1 g2 t =
      (some (applySessionUpdates n2 ⟨none, some t⟩
          (applySessionUpdates n1 ⟨some [c3Message], none⟩
            (freshSession n0 sid none))),
       storeSet (c3Step1 store cid n0 n1 sid g0 g1).2 cid
         (StoredData.sessions
           (applySessionUpdates n2 ⟨none, some t⟩
              (applySessionUpdates n1 ⟨some [c3Message], none⟩
                (freshSession n0 sid none)) ::
            (getChatSessions n0 g0 store cid).1))) :=
    updateChatSession_front n2 g2 (c3Step1 store cid n0 n1 sid g0 g1).2 cid sid
      _ _ ⟨none, some t⟩ hl1 hid1
  have hl2 : storeLookup (c3Step2 store cid n0 n1 n2 sid g0 g1 g2 t).2 cid =
      some (StoredData.sessions
        (applySessionUpdates n2 ⟨none, some t⟩
           (applySessionUpdates n1 ⟨some [c3Message], none⟩
             (freshSession n0 sid none)) ::
         (getChatSessions n0 g0 store cid).1)) := by
    rw [hs2]
    exact storeLookup_storeSet_self _ _ _
  have hid2 : (applySessionUpdates n2 ⟨none, some t⟩
      (applySessionUpdates n1 ⟨some [c3Message], none⟩
        (freshSession n0 sid none))).id = sid := by
    rw [applySessionUpdates_id]
    exact hid1
  have ht2 : ¬ (applySessionUpdates n2 ⟨none, some t⟩
      (applySessionUpdates n1 ⟨some [c3Message], none⟩
        (freshSession n0 sid none))).title = "New Chat" := by
    rw [applySessionUpdates_title_explicit]
    exact ht
  have hs3 : c3Step3 store cid n0 n1 n2 n3 sid g0 g1 g2 g3 t msgs3 =
      (some (applySessionUpdates n3 ⟨some msgs3, none⟩
          (applySessionUpdates n2 ⟨none, some t⟩
            (applySessionUpdates n1 ⟨some [c3Message], none⟩
              (freshSession n0 sid none)))),
       storeSet (c3Step2 store cid n0 n1 n2 sid g0 g1 g2 t).2 cid
         (StoredData.sessions
           (applySessionUpdates n3 ⟨some msgs3, none⟩
              (applySessionUpdates n2 ⟨none, some t⟩
                (applySessionUpdates n1 ⟨some [c3Message], none⟩
                  (freshSession n0 sid none))) ::
            (getChatSessions n0 g0 store cid).1))) :=
    updateChatSession_front n3 g3
      (c3Step2 store cid n0 n1 n2 sid g0 g1 g2 t).2 cid sid _ _
      ⟨some msgs3, none⟩ hl2 hid2
  refine ⟨rfl, ?_, ?_, ?_⟩
  · rw [hs1]
    rfl
  · rw [hs2]
    simp only [Option.map_some']
    rw [applySessionUpdates_title_explicit]
  · rw [hs3]
    simp only [Option.map_some']
    rw [applySessionUpdates_title_noauto _ _ _ ht2,
      applySessionUpdates_title_explicit]

/-- C3 (witness): the scenario instantiated on the empty store with the
explicit title `"Weekly users"`. -/
theorem auto_title_sequence_witness :
    (c3Created ([] : ChatHistoryStore) "conn1" "t0" "s1" "g0").1.title =
      "New Chat" ∧
    (c3Step1 ([] : ChatHistoryStore) "conn1" "t0" "t1" "s1" "g0" "g1").1.map
      ChatSession.title = some "show me all users from last week please" ∧
    (c3Step2 ([] : ChatHistoryStore) "conn1" "t0" "t1" "t2" "s1" "g0" "g1" "g2"
      "Weekly users").1.map ChatSession.title = some "Weekly users" ∧
    (c3Step3 ([] : ChatHistoryStore) "conn1" "t0" "t1" "t2" "t3" "s1" "g0" "g1"
      "g2" "g3" "Weekly users" [c3Message]).1.map ChatSession.title =
      some "Weekly users" :=
  auto_title_sequence ([] : ChatHistoryStore) "conn1" "t0" "t1" "t2" "t3" "s1"
    "g0" "g1" "g2" "g3" "Weekly users" [c3Message] (by decide)

/-- The first legacy message of the migration scenario. -/
def m1W : StoredChatMessage :=
  { id := "m1"
    role := ChatRole.user
    content := "hi"
    createdAt := some "2024-01-01T00:00:00Z" }

/-- The second legacy message of the migration scenario. -/
def m2W : StoredChatMessage :=
  { id := "m2"
    role := ChatRole.assistant
    content := "hello"
    createdAt := some "2024-01-01T00:01:00Z" }

/-- A legacy message carrying no timestamp. -/
def mNoTs : StoredChatMessage :=
  { id := "m3"
    role := ChatRole.user
    content := "ping"
    createdAt := none }

/-- C4: migrating the legacy flat array `[m1, m2]` produces exactly one
session titled `"hi"`, with `createdAt` from the first message, `updatedAt`
from the last message, and both messages in their original order; and for
any message list whose entries carry no timestamp, the current time is used
as the fallback for both timestamps. -/
theorem legacy_migration_concrete (now freshId : String) :
    migrateLegacyToSessions now freshId [m1W, m2W] =
      [{ id := freshId
         title := "hi"
         messages := [m1W, m2W]
         createdAt := "2024-01-01T00:00:00Z"
         updatedAt := "2024-01-01T00:01:00Z" }] ∧
    (∀ m : StoredChatMessage, m.createdAt = none →
        migrateLegacyToSessions now freshId [m] =
          [{ id := freshId
             title := generateSessionTitle [m]
             messages := [m]
             createdAt := now
             updatedAt := now }]) := by
  constructor
  · rfl
  · intro m hm
    simp [migrateLegacyToSessions, jsOrElse, hm]

/-- C4 (witness): the no-timestamp fallback instantiated at the concrete
message `mNoTs`. -/
theorem legacy_migration_concrete_witness :
    migrateLegacyToSessions "T0" "F0" [mNoTs] =
      [{ id := "F0"
         title := generateSessionTitle [mNoTs]
         messages := [mNoTs]
         createdAt := "T0"
         updatedAt := "T0" }] :=
  (legacy_migration_concrete "T0" "F0").2 mNoTs rfl

/-- Written from the spec's words: a provider configuration is "present"
when, for every provider except `ollama`, it is a config object carrying a
non-empty `apiKey` string, and for `ollama` when a config object exists at
all. -/
def SpecPresentConfig (p : AIProvider) (cfg : Option AIProviderConfig) : Prop :=
  match cfg with
  | none => False
  | some c => p = AIProvider.ollama ∨ ∃ k, c.apiKey = some k ∧ ¬ k = ""

/-- C5: `isConfigured` (computed by `isMultiProviderConfigured` after every
configuration action) is true exactly when the active provider has a
present configuration in the spec's sense: a non-empty api key for every
provider except `ollama`, mere existence of the config object for
`ollama`. -/
theorem isConfigured_iff_present (oc : Option AIMultiProviderConfig) :
    isMultiProviderConfigured oc = true ↔
      ∃ c, oc = some c ∧
        SpecPresentConfig c.activeProvider (getProviderEntry c c.activeProvider) := by
  cases oc with
  | none => simp [isMultiProviderConfigured]
  | some c =>
      simp only [isMultiProviderConfigured, Option.some.injEq]
      cases hc : getProviderEntry c c.activeProvider with
      | none =>
          simp only [SpecPresentConfig]
          constructor
          · intro h
            cases h
          · rintro ⟨c', rfl, hp⟩
            rw [hc] at hp
            cases hp
      | some cfg =>
          by_cases hp : c.activeProvider = AIProvider.ollama
          · rw [hp] at hc
            simp [SpecPresentConfig, hp, hc]
          · cases hk : cfg.apiKey with
            | none => simp [SpecPresentConfig, hc, hp, strTruthy, hk]
            | some k => simp [SpecPresentConfig, hc, hp, strTruthy, hk]

/-- A concrete multi-provider configuration with only `openai` configured. -/
def configW : AIMultiProviderConfig :=
  { providers := [(AIProvider.openai,
      { apiKey := some "sk-test", baseUrl := none })]
    activeProvider := AIProvider.openai
    activeModels := [] }

/-- C5 (witness): on the concrete `openai`-only configuration the
equivalence instantiates to a present active configuration. -/
theorem isConfigured_iff_present_witness :
    ∃ c, (some configW : Option AIMultiProviderConfig) = some c ∧
      SpecPresentConfig c.activeProvider (getProviderEntry c c.activeProvider) :=
  (isConfigured_iff_present (some configW)).mp (by decide)

theorem assoc_find?_filter_self {α β : Type} [DecidableEq α]
    (l : List (α × β)) (p : α) :
    (l.filter (fun e => !(e.1 = p))).find? (fun e => e.1 = p) = none := by
  induction l with
  | nil => simp
  | cons e rest ih =>
      by_cases he : e.1 = p
      · simpa [List.filter, he] using ih
      · simpa [List.filter, he] using ih

theorem assoc_find?_filter_ne {α β : Type} [DecidableEq α]
    (l : List (α × β)) (p q : α) (hq : ¬ q = p) :
    (l.filter (fun e => !(e.1 = p))).find? (fun e => e.1 = q) =
      l.find? (fun e => e.1 = q) := by
  induction l with
  | nil => rfl
  | cons e rest ih =>
      by_cases he : e.1 = p
      · have heq : ¬ e.1 = q := by
          rw [he]
          intro h
          exact hq h.symm
        rw [List.filter_cons_of_neg (by simpa using he),
          List.find?_cons_of_neg _ (by simpa using heq)]
        exact ih
      · rw [List.filter_cons_of_pos (by simpa using he)]
        by_cases heq : e.1 = q
        · rw [List.find?_cons_of_pos _ (by simpa using heq),
            List.find?_cons_of_pos _ (by simpa using heq)]
        · rw [List.find?_cons_of_neg _ (by simpa using heq),
            List.find?_cons_of_neg _ (by simpa using heq)]
          exact ih

/-- C6: `removeProviderConfig` deletes the given provider's entry and
leaves every other entry untouched; when the removed provider was active,
the new active provider is the first remaining configured provider, or
`openai` when none remain; otherwise the active provider is unchanged; in
particular removing the active provider when it was the only configured one
leaves `activeProvider` at the `openai` default with `isConfigured`
false. -/
theorem removeProvider_behavior (st : AIState) (p : AIProvider)
    (mpc : AIMultiProviderConfig) (h : st.multiProviderConfig = some mpc) :
    ∃ mpc', (removeProviderConfig st p).multiProviderConfig = some mpc' ∧
      getProviderEntry mpc' p = none ∧
      (∀ q, ¬ q = p → getProviderEntry mpc' q = getProviderEntry mpc q) ∧
      (¬ p = mpc.activeProvider →
        mpc'.activeProvider = mpc.activeProvider) ∧
      (p = mpc.activeProvider →
        mpc'.activeProvider =
          (((mpc.providers.filter (fun e => !(e.1 = p))).head?.map
            Prod.fst).getD AIProvider.openai)) ∧
      (p = mpc.activeProvider →
        mpc.providers.filter (fun e => !(e.1 = p)) = [] →
          mpc'.activeProvider = AIProvider.openai ∧
          (removeProviderConfig st p).isConfigured = false) := by
  have hrm : removeProviderConfig st p =
      { multiProviderConfig := some
          { providers := mpc.providers.filter (fun e => !(e.1 = p))
            activeProvider :=
              if p = mpc.activeProvider then
                match mpc.providers.filter (fun e => !(e.1 = p)) with
                | [] => AIProvider.openai
                | e :: _ => e.1
              else mpc.activeProvider
            activeModels := mpc.activeModels }
        config := deriveLegacyConfig (some
          { providers := mpc.providers.filter (fun e => !(e.1 = p))
            activeProvider :=
              if p = mpc.activeProvider then
                match mpc.providers.filter (fun e => !(e.1 = p)) with
                | [] => AIProvider.openai
                | e :: _ => e.1
              else mpc.activeProvider
            activeModels := mpc.activeModels })
        isConfigured := isMultiProviderConfigured (some
          { providers := mpc.providers.filter (fun e => !(e.1 = p))
            activeProvider :=
              if p = mpc.activeProvider then
                match mpc.providers.filter (fun e => !(e.1 = p)) with
                | [] => AIProvider.openai
                | e :: _ => e.1
              else mpc.activeProvider
            activeModels := mpc.activeModels }) } := by
    unfold removeProviderConfig
    rw [h]
  refine ⟨_, by rw [hrm], ?_, ?_, ?_, ?_, ?_⟩
  · exact congrArg (Option.map Prod.snd) (assoc_find?_filter_self mpc.providers p)
  · intro q hq
    exact congrArg (Option.map Prod.snd) (assoc_find?_filter_ne mpc.providers p q hq)
  · intro hne
    simp [if_neg hne]
  · intro heq
    rw [if_pos heq]
    cases mpc.providers.filter (fun e => !(e.1 = p)) <;> rfl
  · intro heq hempty
    constructor
    · rw [if_pos heq, hempty]
    · rw [hrm]
      simp only [isMultiProviderConfigured, getProviderEntry, hempty]
      rfl

/-- The zustand state slice holding the concrete `openai`-only
configuration. -/
def stateW : AIState :=
  { multiProviderConfig := some configW
    config := deriveLegacyConfig (some configW)
    isConfigured := isMultiProviderConfigured (some configW) }

/-- C6 (witness): removing `openai` from the `openai`-only state defaults
the active provider and clears `isConfigured`. -/
theorem removeProvider_behavior_witness :
    (removeProviderConfig stateW AIProvider.openai).multiProviderConfig.map
      AIMultiProviderConfig.activeProvider = some AIProvider.openai ∧
    (removeProviderConfig stateW AIProvider.openai).isConfigured = false := by
  obtain ⟨mpc', h1, -, -, -, -, h6⟩ :=
    removeProvider_behavior stateW AIProvider.openai configW rfl
  obtain ⟨ha, hc⟩ := h6 rfl (by decide)
  exact ⟨by rw [h1, Option.map_some', ha], hc⟩

theorem applySessionUpdates_messages_some (now : String)
    (msgs : List StoredChatMessage) (ut : Option String) (s : ChatSession) :
    (applySessionUpdates now ⟨some msgs, ut⟩ s).messages = msgs := by
  rcases ut with _ | t <;> simp only [applySessionUpdates] <;>
    (try split) <;> rfl

theorem applySessionUpdates_createdAt (now : String) (u : SessionUpdates)
    (s : ChatSession) :
    (applySessionUpdates now u s).createdAt = s.createdAt := by
  rcases u with ⟨um, ut⟩
  rcases um with _ | m <;> rcases ut with _ | t <;>
    simp only [applySessionUpdates] <;> (try split) <;> rfl

theorem applySessionUpdates_updatedAt (now : String) (u : SessionUpdates)
    (s : ChatSession) :
    (applySessionUpdates now u s).updatedAt = now := rfl

/-- C7: `createChatSession` returns a session with the fresh id, an empty
message list, equal creation and update timestamps, inserted at the front
of the connection's session list; and the round trip `createChatSession` →
`updateChatSession` with a message list → `getChatSession` returns those
messages unchanged and in order, with `updatedAt ≥ createdAt` (the clock
reads `n1 ≤ n2` in ISO-8601 order). -/
theorem create_update_roundtrip (store : ChatHistoryStore) (cid : String)
    (title : Option String) (n1 n2 n3 sid g1 g2 g3 g4 : String)
    (msgs : List StoredChatMessage) (hn : n1 ≤ n2) :
    (createChatSession n1 sid g1 store cid title).1 = freshSession n1 sid title ∧
    (freshSession n1 sid title).id = sid ∧
    (freshSession n1 sid title).messages = [] ∧
    (freshSession n1 sid title).createdAt = n1 ∧
    (freshSession n1 sid title).updatedAt = n1 ∧
    (getChatSessions n2 g2
        (createChatSession n1 sid g1 store cid title).2 cid).1.head? =
      some (freshSession n1 sid title) ∧
    (∃ s', getChatSession n3 g4
        (updateChatSession n2 g3
          (createChatSession n1 sid g1 store cid title).2 cid sid
          ⟨some msgs, none⟩).2 cid sid = some s' ∧
      s'.messages = msgs ∧ s'.createdAt ≤ s'.updatedAt) := by
  have hlk := createChatSession_lookup n1 sid g1 store cid title
  have hupd : updateChatSession n2 g3
      (createChatSession n1 sid g1 store cid title).2 cid sid
      ⟨some msgs, none⟩ =
      (some (applySessionUpdates n2 ⟨some msgs, none⟩ (freshSession n1 sid title)),
       storeSet (createChatSession n1 sid g1 store cid title).2 cid
         (StoredData.sessions
           (applySessionUpdates n2 ⟨some msgs, none⟩ (freshSession n1 sid title) ::
            (getChatSessions n1 g1 store cid).1))) :=
    updateChatSession_front n2 g3 _ cid sid (freshSession n1 sid title) _
      ⟨some msgs, none⟩ hlk rfl
  have hlk2 : storeLookup (updateChatSession n2 g3
      (createChatSession n1 sid g1 store cid title).2 cid sid
      ⟨some msgs, none⟩).2 cid =
      some (StoredData.sessions
        (applySessionUpdates n2 ⟨some msgs, none⟩ (freshSession n1 sid title) ::
         (getChatSessions n1 g1 store cid).1)) := by
    rw [hupd]
    exact storeLookup_storeSet_self _ _ _
  have hid : (applySessionUpdates n2 ⟨some msgs, none⟩
      (freshSession n1 sid title)).id = sid := by
    rw [applySessionUpdates_id]
    rfl
  refine ⟨rfl, rfl, rfl, rfl, rfl, ?_, ?_⟩
  · rw [getChatSessions_of_sessions n2 g2 _ cid _ hlk]
    rfl
  · refine ⟨applySessionUpdates n2 ⟨some msgs, none⟩ (freshSession n1 sid title),
      ?_, applySessionUpdates_messages_some n2 msgs none _, ?_⟩
    · unfold getChatSession
      rw [getChatSessions_of_sessions n3 g4 _ cid _ hlk2]
      exact List.find?_cons_of_pos _ (by simpa using hid)
    · rw [applySessionUpdates_createdAt, applySessionUpdates_updatedAt]
      exact hn

/-- C7 (witness): the round trip on the empty store with equal clock
readings. -/
theorem create_update_roundtrip_witness :
    (createChatSession "2024-05-05T10:00:00Z" "s1" "g1"
        ([] : ChatHistoryStore) "conn1" none).1 =
      freshSession "2024-05-05T10:00:00Z" "s1" none ∧
    (freshSession "2024-05-05T10:00:00Z" "s1" none).id = "s1" ∧
    (freshSession "2024-05-05T10:00:00Z" "s1" none).messages = [] ∧
    (freshSession "2024-05-05T10:00:00Z" "s1" none).createdAt =
      "2024-05-05T10:00:00Z" ∧
    (freshSession "2024-05-05T10:00:00Z" "s1" none).updatedAt =
      "2024-05-05T10:00:00Z" ∧
    (getChatSessions "2024-05-05T10:00:00Z" "g2"
        (createChatSession "2024-05-05T10:00:00Z" "s1" "g1"
          ([] : ChatHistoryStore) "conn1" none).2 "conn1").1.head? =
      some (freshSession "2024-05-05T10:00:00Z" "s1" none) ∧
    (∃ s', getChatSession "2024-05-05T10:00:00Z" "g4"
        (updateChatSession "2024-05-05T10:00:00Z" "g3"
          (createChatSession "2024-05-05T10:00:00Z" "s1" "g1"
            ([] : ChatHistoryStore) "conn1" none).2 "conn1" "s1"
          ⟨some [m1W], none⟩).2 "conn1" "s1" = some s' ∧
      s'.messages = [m1W] ∧ s'.createdAt ≤ s'.updatedAt) :=
  create_update_roundtrip ([] : ChatHistoryStore) "conn1" none
    "2024-05-05T10:00:00Z" "2024-05-05T10:00:00Z" "2024-05-05T10:00:00Z"
    "s1" "g1" "g2" "g3" "g4" [m1W] (le_refl _)

/-- A concrete provider configuration for witnesses. -/
def cfgW : AIConfig :=
  { provider := AIProvider.openai
    apiKey := some "sk-test"
    model := "gpt-test"
    baseUrl := none }

/-- A concrete conversation message for witnesses. -/
def msgW : AIMessage :=
  { role := ChatRole.user
    content := "how many users signed up this week?" }

/-- C8: `generateChatResponse` always returns a typed result — either a
success carrying the normalized response or a failure carrying an error
message; when the single underlying generation call returns a
schema-validated object the result is the success with its normalization,
and when it throws, the error message is captured into the failure result
rather than re-raised; the call's one outcome fully determines the result
(no retry). -/
theorem generate_returns_typed_result (config : AIConfig)
    (messages : List AIMessage) (schemas : List SchemaInfo) (dbType : String)
    (outcome : Except String RawResponse) :
    ((∃ d, generateChatResponse config messages schemas dbType outcome =
        { success := true, data := some d, error := none }) ∨
     (∃ e, generateChatResponse config messages schemas dbType outcome =
        { success := false, data := none, error := some e })) ∧
    (∀ raw, outcome = Except.ok raw → ¬ messages = [] →
      generateChatResponse config messages schemas dbType outcome =
        { success := true, data := some (normalizeResponse raw), error := none }) ∧
    (∀ e, outcome = Except.error e → ¬ messages = [] →
      generateChatResponse config messages schemas dbType outcome =
        { success := false, data := none, error := some e }) := by
  cases messages with
  | nil =>
      refine ⟨Or.inr ⟨emptyMessagesError, rfl⟩, ?_, ?_⟩ <;>
        (intro x hx hm; exact absurd rfl hm)
  | cons m ms =>
      cases outcome with
      | ok raw =>
          refine ⟨Or.inl ⟨normalizeResponse raw, rfl⟩, ?_, ?_⟩
          · intro r hr _
            cases hr
            rfl
          · intro e he _
            cases he
      | error e =>
          refine ⟨Or.inr ⟨e, rfl⟩, ?_, ?_⟩
          · intro r hr _
            cases hr
          · intro e' he _
            cases he
            rfl

/-- C8 (witness): a thrown generation error surfaces as the failure result
with the same message. -/
theorem generate_returns_typed_result_witness :
    generateChatResponse cfgW [msgW] [] "PostgreSQL" (Except.error "boom") =
      { success := false, data := none, error := some "boom" } :=
  (generate_returns_typed_result cfgW [msgW] [] "PostgreSQL"
      (Except.error "boom")).2.2 "boom" rfl (by decide)

/-- C9: `validateAPIKey` never throws past its boundary — it returns
`{valid := true}` exactly when the underlying call succeeds, and otherwise
`{valid := false, error}` with the failure signature mapped to its
user-facing category (unauthorized, forbidden, rate-limited,
connection/DNS failure, raw message pass-through, checked in source
order). -/
theorem validate_error_mapping (config : AIConfig)
    (outcome : Except String Unit) :
    (validateAPIKey config outcome = { valid := true, error := none } ↔
      outcome = Except.ok ()) ∧
    (∀ msg, outcome = Except.error msg →
      validateAPIKey config outcome =
        { valid := false, error := some (mapValidationError msg) }) ∧
    (∀ msg, (strIncludes msg "401" || strIncludes msg "Unauthorized") = true →
      mapValidationError msg = "Invalid API key") ∧
    (∀ msg, (strIncludes msg "401" || strIncludes msg "Unauthorized") = false →
      (strIncludes msg "403" || strIncludes msg "Forbidden") = true →
      mapValidationError msg = "API key does not have required permissions") ∧
    (∀ msg, (strIncludes msg "401" || strIncludes msg "Unauthorized") = false →
      (strIncludes msg "403" || strIncludes msg "Forbidden") = false →
      strIncludes msg "429" = true →
      mapValidationError msg = "Rate limit exceeded. Please try again later.") ∧
    (∀ msg, (strIncludes msg "401" || strIncludes msg "Unauthorized") = false →
      (strIncludes msg "403" || strIncludes msg "Forbidden") = false →
      strIncludes msg "429" = false →
      (strIncludes msg "ECONNREFUSED" || strIncludes msg "ENOTFOUND") = true →
      mapValidationError msg =
        "Could not connect to AI provider. Check your network.") ∧
    (∀ msg, (strIncludes msg "401" || strIncludes msg "Unauthorized") = false →
      (strIncludes msg "403" || strIncludes msg "Forbidden") = false →
      strIncludes msg "429" = false →
      (strIncludes msg "ECONNREFUSED" || strIncludes msg "ENOTFOUND") = false →
      mapValidationError msg = msg) := by
  refine ⟨?_, ?_, ?_, ?_, ?_, ?_, ?_⟩
  · cases outcome with
    | ok u =>
        cases u
        simp [validateAPIKey]
    | error e =>
        simp [validateAPIKey]
  · intro msg h
    cases h
    rfl
  · intro msg h1
    simp [mapValidationError, h1]
  · intro msg h1 h2
    simp [mapValidationError, h1, h2]
  · intro msg h1 h2 h3
    simp [mapValidationError, h1, h2, h3]
  · intro msg h1 h2 h3 h4
    simp [mapValidationError, h1, h2, h3, h4]
  · intro msg h1 h2 h3 h4
    simp [mapValidationError, h1, h2, h3, h4]

/-- C9 (witness): an unauthorized failure maps to the invalid-key
category. -/
theorem validate_error_mapping_witness :
    validateAPIKey cfgW (Except.error "HTTP 401 Unauthorized") =
      { valid := false, error := some "Invalid API key" } := by
  have h := validate_error_mapping cfgW (Except.error "HTTP 401 Unauthorized")
  rw [h.2.1 "HTTP 401 Unauthorized" rfl,
    h.2.2.1 "HTTP 401 Unauthorized" (by decide)]

theorem generateSessionTitle_no_user (msgs : List StoredChatMessage)
    (h : ∀ m ∈ msgs, ¬ m.role = ChatRole.user) :
    generateSessionTitle msgs = "New Chat" := by
  unfold generateSessionTitle
  rw [List.find?_eq_none.mpr (fun x hx => by simpa using h x hx)]

theorem applySessionUpdates_title_auto (now : String) (m0 : StoredChatMessage)
    (ms : List StoredChatMessage) (s : ChatSession)
    (htitle : s.title = "New Chat") :
    (applySessionUpdates now ⟨some (m0 :: ms), none⟩ s).title =
      generateSessionTitle (m0 :: ms) := by
  unfold applySessionUpdates
  simp [htitle]

/-- C10: the auto-title rule only fires from a user-role message — when no
message has role `user`, the derived title is the `"New Chat"` fallback, so
an update of a default-titled session with such a non-empty message list
leaves the title at `"New Chat"`; and the derived title is computed from
the first user-role message's content, trimmed before the 40-character
truncation check. -/
theorem auto_title_requires_user :
    (∀ msgs : List StoredChatMessage,
        (∀ m ∈ msgs, ¬ m.role = ChatRole.user) →
        generateSessionTitle msgs = "New Chat") ∧
    (∀ (msgs : List StoredChatMessage) (m : StoredChatMessage),
        msgs.find? (fun x => x.role = ChatRole.user) = some m →
        generateSessionTitle msgs =
          (if (jsTrim m.content).length > 40 then
            (jsTrim m.content).take 40 ++ "..."
           else jsTrim m.content)) ∧
    (∀ (store : ChatHistoryStore) (cid sid now migId : String)
        (s : ChatSession) (rest : List ChatSession)
        (msgs2 : List StoredChatMessage),
        storeLookup store cid = some (StoredData.sessions (s :: rest)) →
        s.id = sid → s.title = "New Chat" → ¬ msgs2 = [] →
        (∀ m ∈ msgs2, ¬ m.role = ChatRole.user) →
        (updateChatSession now migId store cid sid
          ⟨some msgs2, none⟩).1.map ChatSession.title = some "New Chat") := by
  refine ⟨generateSessionTitle_no_user, ?_, ?_⟩
  · intro msgs m hf
    unfold generateSessionTitle
    rw [hf]
  · intro store cid sid now migId s rest msgs2 hlk hid htitle hne huser
    rcases msgs2 with _ | ⟨m0, ms⟩
    · exact absurd rfl hne
    · rw [updateChatSession_front now migId store cid sid s rest
        ⟨some (m0 :: ms), none⟩ hlk hid]
      simp only [Option.map_some']
      rw [applySessionUpdates_title_auto now m0 ms s htitle,
        generateSessionTitle_no_user (m0 :: ms) huser]

/-- A default-titled session stored under connection `"c9"`. -/
def sessionNW : ChatSession :=
  { id := "s9"
    title := "New Chat"
    messages := []
    createdAt := "2024-01-01T00:00:00Z"
    updatedAt := "2024-01-01T00:00:00Z" }

/-- The store holding `sessionNW`. -/
def storeNW : ChatHistoryStore := [("c9", StoredData.sessions [sessionNW])]

/-- C10 (witness): updating the default-titled session with a single
assistant message keeps the `"New Chat"` title. -/
theorem auto_title_requires_user_witness :
    (updateChatSession "2024-01-01T00:05:00Z" "g9" storeNW "c9" "s9"
        ⟨some [m2W], none⟩).1.map ChatSession.title = some "New Chat" :=
  auto_title_requires_user.2.2 storeNW "c9" "s9" "2024-01-01T00:05:00Z" "g9"
    sessionNW [] [m2W] rfl rfl rfl (by decide) (by decide)

end DataPeek
